import Mathlib

/-!
# Regional state-reconciliation engine — verification development

A shallow embedding of the reconciliation subsystem of the
rideshare-location-consistency repository, together with proofs and
refutations of the specification's claims about it.

The control flow of the deployed engine is the Amazon States Language
state machine literal `stateMachineDefinition` built by the
`ConsistencyChecker` construct, the EventBridge schedule rules, and the
Lambda resource configuration.  Those are embedded here directly from the
source.  The bodies of the `drift-detector` and `state-corrector` Lambda
functions are not part of the repository (both are deployed from a
placeholder archive), so the drift-analysis and correction algorithms are
modelled from the specification text; every such definition carries a doc
comment starting with "Modelled from the spec:".
-/

namespace RideShare

/-! ## The Step Functions state machine (from `ConsistencyChecker`)

The `stateMachineDefinition` object literal in the source has a fixed
shape: a `CompareRegions` Parallel state whose branches are one
single-Task machine per configured region, an `AnalyzeDrift` Task, a
`DriftDetected?` Choice on `$.Payload.driftDetected`, a `CorrectDrift`
Task marked `End: true`, and a `Success` Succeed state.  The embedding
mirrors each literal field. -/

/-- Models the source's `region.replace` with a global dash pattern:
every dash is removed from the region name when forming the branch state
name. -/
def stripDashes (s : String) : String :=
  String.mk (s.data.filter (fun c => c ≠ '-'))

/-- One branch of the `CompareRegions` Parallel state: a single Task
state invoking the drift-detector Lambda with `action: 'compare'` for one
region.  `timeoutSeconds` is the task's `TimeoutSeconds` field and
`isEnd` its `End` field. -/
structure BranchTask where
  stateName : String
  functionName : String
  payloadRegion : String
  payloadAction : String
  timeoutSeconds : Nat
  isEnd : Bool
  deriving Repr, DecidableEq

/-- The shape of the `stateMachineDefinition` literal from the source,
field by field.  `choiceVarPath` / `choiceBooleanEquals` are the single
rule of the `DriftDetected?` Choice state; `choiceDefault` its `Default`
branch. -/
structure StateMachineDef where
  comment : String
  startAt : String
  compareBranches : List BranchTask
  compareNext : String
  analyzeFunctionName : String
  analyzePayloadAction : String
  analyzeNext : String
  choiceVarPath : String
  choiceBooleanEquals : Bool
  choiceNextWhenTrue : String
  choiceDefault : String
  correctFunctionName : String
  correctTimeoutSeconds : Nat
  correctIsEnd : Bool
  deriving Repr, DecidableEq

/-- The `stateMachineDefinition` object built by the `ConsistencyChecker`
construct, as a function of the configured region list. -/
def stateMachineDefinition (regions : List String) : StateMachineDef :=
  { comment := "Location consistency checker workflow"
    startAt := "CompareRegions"
    compareBranches := regions.map (fun region =>
      { stateName := "CheckRegion" ++ stripDashes region
        functionName := "drift-detector"
        payloadRegion := region
        payloadAction := "compare"
        timeoutSeconds := 5
        isEnd := true })
    compareNext := "AnalyzeDrift"
    analyzeFunctionName := "drift-detector"
    analyzePayloadAction := "analyze"
    analyzeNext := "DriftDetected?"
    choiceVarPath := "$.Payload.driftDetected"
    choiceBooleanEquals := true
    choiceNextWhenTrue := "CorrectDrift"
    choiceDefault := "Success"
    correctFunctionName := "state-corrector"
    correctTimeoutSeconds := 10
    correctIsEnd := true }

/-- The keys of the top-level `States` object of the definition (branch
states are nested inside `CompareRegions`, not top level). -/
def topLevelStateNames (_m : StateMachineDef) : List String :=
  ["CompareRegions", "AnalyzeDrift", "DriftDetected?", "CorrectDrift", "Success"]

/-- All state names appearing anywhere in the definition: the top-level
keys plus the per-region branch state names. -/
def stateNames (regions : List String) : List String :=
  topLevelStateNames (stateMachineDefinition regions) ++
    (stateMachineDefinition regions).compareBranches.map (fun b => b.stateName)

/-! ## Execution semantics of the deployed definition

A cycle is one execution of the state machine.  The environment records
the outcome of each Lambda task the execution may invoke: each per-region
`CheckRegion` task, the `AnalyzeDrift` task, and the `CorrectDrift` task.
Amazon States Language semantics as used here: a Task whose
`TimeoutSeconds` elapses raises `States.Timeout`; since no state of this
definition has a `Catch` or `Retry` field, any raised error fails its
branch, a failed branch fails the enclosing Parallel state, and an
uncaught error terminates the whole execution as failed. -/

/-- Outcome of one Lambda task invocation. -/
inductive TaskOutcome (α : Type) where
  | completed (payload : α)
  | timedOut
  | errored (error : String)
  deriving Repr, DecidableEq

/-- The error an outcome raises, if any (`States.Timeout` on timeout). -/
def branchError {α : Type} : TaskOutcome α → Option String
  | .completed _ => none
  | .timedOut => some "States.Timeout"
  | .errored e => some e

/-- Payload returned by the `AnalyzeDrift` task and examined by the
`DriftDetected?` Choice state; `CorrectDrift` receives `driftRegions`
and `canonicalState` from it. -/
structure AnalyzeOutput where
  driftDetected : Bool
  driftRegions : List String
  canonicalState : String
  deriving Repr, DecidableEq

/-- Per-region compare payload is opaque to the machine's routing; the
per-region task's result payload is not inspected by any Choice state. -/
structure ComparePayload where
  region : String
  deriving Repr, DecidableEq

/-- Task outcomes for one execution of the state machine. -/
structure CycleEnv where
  compare : String → TaskOutcome ComparePayload
  analyze : TaskOutcome AnalyzeOutput
  correct : TaskOutcome Unit

/-- Result of one execution: failed with an uncaught error, or
succeeded, terminating at the named `End`/`Succeed` state. -/
inductive CycleResult where
  | failed (error : String)
  | succeededAt (terminalState : String)
  deriving Repr, DecidableEq

/-- True when every branch of the `CompareRegions` Parallel state
completed; only then does the execution move on to `AnalyzeDrift`. -/
def allComparesCompleted (regions : List String) (env : CycleEnv) : Bool :=
  regions.all (fun r => (branchError (env.compare r)).isNone)

/-- The `AnalyzeDrift` task runs iff the Parallel state succeeded. -/
def analyzerInvoked (regions : List String) (env : CycleEnv) : Bool :=
  allComparesCompleted regions env

/-- The `CorrectDrift` task runs iff the Parallel state succeeded, the
analyzer completed, and its payload's `driftDetected` is `true` (the
single rule of the `DriftDetected?` Choice state). -/
def correctorInvoked (regions : List String) (env : CycleEnv) : Bool :=
  allComparesCompleted regions env &&
    (match env.analyze with
     | .completed p => p.driftDetected
     | _ => false)

/-- One execution of the deployed state machine. -/
def runCycle (regions : List String) (env : CycleEnv) : CycleResult :=
  match regions.findSome? (fun r => branchError (env.compare r)) with
  | some e => .failed e
  | none =>
    match env.analyze with
    | .timedOut => .failed "States.Timeout"
    | .errored e => .failed e
    | .completed p =>
      if p.driftDetected = true then
        match env.correct with
        | .completed _ => .succeededAt "CorrectDrift"
        | .timedOut => .failed "States.Timeout"
        | .errored e => .failed e
      else .succeededAt "Success"

/-! ## DriftAnalyzer (modelled from the spec)

The drift-detector Lambda's body is not in the repository (it is deployed
from a placeholder archive), so the analysis algorithm is modelled from
spec section 4.2.  Coordinates are rationals standing in for the spec's
float64 values; the great-circle distance function is a parameter
`dist`, since the spec's haversine formula is transcendental — every
theorem below states the property of `dist` that it relies on (for the
claims settled here, only that the distance of a point to itself is 0,
which the IEEE haversine computation satisfies exactly). -/

/-- A latitude/longitude pair. -/
abbrev GeoPos : Type := ℚ × ℚ

/-- Modelled from the spec: the fixed drift threshold of 100 meters. -/
def driftThresholdMeters : ℚ := 100

/-- Modelled from the spec: the `LocationSample` record. -/
structure LocationSample where
  driverID : String
  latitude : ℚ
  longitude : ℚ
  observedAtMillis : ℤ
  region : String
  deriving Repr, DecidableEq

/-- Modelled from the spec: the `RegionSnapshot` record; `fetchError`
is true when the region's fetch timed out or failed. -/
structure RegionSnapshot where
  region : String
  fetchedAtMillis : ℤ
  samples : List LocationSample
  fetchError : Bool
  deriving Repr, DecidableEq

/-- Modelled from the spec: drift severity. -/
inductive Severity where
  | sevNone
  | minor
  | major
  deriving Repr, DecidableEq

/-- Modelled from the spec: the per-cycle `DriftReport` record. -/
structure DriftReport where
  cycleID : String
  sampleSize : Nat
  driftedDriverCount : Nat
  driftPercentage : ℚ
  maxDriftMeters : ℚ
  severity : Severity
  affectedRegions : List String
  zeroConfidence : Bool
  deriving Repr, DecidableEq

/-- Snapshots with `fetchError` set are discarded before analysis. -/
def usableSnapshots (snaps : List RegionSnapshot) : List RegionSnapshot :=
  snaps.filter (fun s => !s.fetchError)

/-- The distinct driver IDs appearing in the given snapshots. -/
def sampledDriverIDs (snaps : List RegionSnapshot) : List String :=
  (snaps.flatMap (fun s => s.samples.map (fun l => l.driverID))).dedup

/-- The per-region positions reported for one driver: for each snapshot
containing the driver, the snapshot's region and the reported
latitude/longitude. -/
def positionsOf (d : String) (snaps : List RegionSnapshot) :
    List (String × GeoPos) :=
  snaps.filterMap (fun s =>
    (s.samples.find? (fun l => l.driverID == d)).map
      (fun l => (s.region, (l.latitude, l.longitude))))

/-- All unordered pairs of elements of a list. -/
def listPairs {α : Type} : List α → List (α × α)
  | [] => []
  | x :: xs => xs.map (fun y => (x, y)) ++ listPairs xs

/-- Maximum pairwise distance among a driver's reported positions
(0 when fewer than two positions exist). -/
def maxPairDist (dist : GeoPos → GeoPos → ℚ) (ps : List (String × GeoPos)) : ℚ :=
  ((listPairs ps).map (fun pq => dist pq.1.2 pq.2.2)).foldr max 0

/-- Modelled from the spec: a driver is drifted when its maximum
pairwise distance exceeds the 100-meter threshold. -/
def isDrifted (dist : GeoPos → GeoPos → ℚ) (ps : List (String × GeoPos)) : Bool :=
  decide (driftThresholdMeters < maxPairDist dist ps)

/-- The pairs of a driver's positions lying more than the threshold
apart. -/
def driftedPairs (dist : GeoPos → GeoPos → ℚ) (ps : List (String × GeoPos)) :
    List ((String × GeoPos) × (String × GeoPos)) :=
  (listPairs ps).filter (fun pq => decide (driftThresholdMeters < dist pq.1.2 pq.2.2))

/-- The regions implicated in any drifted pair of one driver's
positions. -/
def driverAffectedRegions (dist : GeoPos → GeoPos → ℚ)
    (ps : List (String × GeoPos)) : List String :=
  ((driftedPairs dist ps).flatMap (fun pq => [pq.1.1, pq.2.1])).dedup

/-- Modelled from the spec: severity classification — `sevNone` when no
driver drifted, `minor` when drift implicates at most two regions,
`major` when three or more regions are implicated. -/
def classifySeverity (driftedDriverCount : Nat) (affectedRegionCount : Nat) :
    Severity :=
  if driftedDriverCount = 0 then .sevNone
  else if affectedRegionCount ≤ 2 then .minor
  else .major

/-- Modelled from the spec: `DriftAnalyzer.analyze`.  Discards snapshots
with `fetchError`; with fewer than two usable snapshots returns
`sevNone` with the zero-confidence flag; otherwise classifies each
sampled driver by maximum pairwise distance and derives severity from
the drifted-driver count and the implicated-region count. -/
def analyze (dist : GeoPos → GeoPos → ℚ) (cycleID : String)
    (snaps : List RegionSnapshot) : DriftReport :=
  let usable := usableSnapshots snaps
  let drivers := sampledDriverIDs usable
  let drifted := drivers.filter (fun d => isDrifted dist (positionsOf d usable))
  let affected :=
    (drifted.flatMap (fun d => driverAffectedRegions dist (positionsOf d usable))).dedup
  let maxD := (drivers.map (fun d => maxPairDist dist (positionsOf d usable))).foldr max 0
  if usable.length < 2 then
    { cycleID := cycleID
      sampleSize := drivers.length
      driftedDriverCount := 0
      driftPercentage := 0
      maxDriftMeters := 0
      severity := .sevNone
      affectedRegions := []
      zeroConfidence := true }
  else
    { cycleID := cycleID
      sampleSize := drivers.length
      driftedDriverCount := drifted.length
      driftPercentage := (drifted.length : ℚ) / (drivers.length : ℚ) * 100
      maxDriftMeters := maxD
      severity := classifySeverity drifted.length affected.length
      affectedRegions := affected
      zeroConfidence := false }

/-- Modelled from the spec: the output of the drift-detector Lambda's
`analyze` action as consumed by the state machine — the `DriftDetected?`
choice reads `driftDetected`, and `CorrectDrift` receives `driftRegions`
and `canonicalState`.  Per the spec's gating policy, `driftDetected` is
true exactly when the report's severity is Major. -/
def analyzeOutputOf (dist : GeoPos → GeoPos → ℚ) (cycleID : String)
    (snaps : List RegionSnapshot) : AnalyzeOutput :=
  let report := analyze dist cycleID snaps
  { driftDetected := decide (report.severity = .major)
    driftRegions := report.affectedRegions
    canonicalState := "s3-canonical-snapshot" }

/-- Modelled from the spec: ambient resources the drift-detector
Lambda's role can reach (regional caches, the snapshot bucket, the
clock).  The `analyze` action's result does not read any of them. -/
structure LambdaWorld where
  cacheContents : String → List LocationSample
  snapshotObject : Option String
  nowMillis : ℤ

/-- Modelled from the spec: the drift-detector Lambda handling an
`analyze` action in ambient world `w`: a pure computation of the report
from the request's snapshots. -/
def driftDetectorAnalyzeHandler (_w : LambdaWorld) (dist : GeoPos → GeoPos → ℚ)
    (cycleID : String) (snaps : List RegionSnapshot) : DriftReport :=
  analyze dist cycleID snaps

/-! ## Corrector / Propagator (modelled from the spec)

The state-corrector Lambda's body is not in the repository, so plan
application is modelled from spec sections 4.3 and 6: a `CorrectionPlan`
is a sequence of canonical records republished to each target region,
and the propagation channel is last-write-wins by record timestamp (a
record replaces a cached entry only when strictly newer). -/

/-- A region's cache: at most one stored sample per driver. -/
abbrev RegionCache : Type := String → Option LocationSample

/-- Modelled from the spec: the `CorrectionPlan` record. -/
structure CorrectionPlan where
  cycleID : String
  targetRegions : List String
  records : List LocationSample

/-- Modelled from the spec: `Propagator.Publish` with last-write-wins by
timestamp at the collaborator — the record is stored when the driver has
no cached entry or the cached entry is strictly older. -/
def publish (c : RegionCache) (r : LocationSample) : RegionCache :=
  fun d =>
    if d = r.driverID then
      match c r.driverID with
      | none => some r
      | some old =>
        if old.observedAtMillis < r.observedAtMillis then some r else some old
    else c d

/-- Republishing every record of a plan into one region's cache, in
plan order. -/
def applyRecords (c : RegionCache) (rs : List LocationSample) : RegionCache :=
  rs.foldl publish c

/-- Modelled from the spec: `Corrector.apply` — each plan record is
republished to every target region's cache; other regions are
untouched. -/
def applyPlan (caches : String → RegionCache) (plan : CorrectionPlan) :
    String → RegionCache :=
  fun region =>
    if region ∈ plan.targetRegions then applyRecords (caches region) plan.records
    else caches region

/-! ## The `ConsistencyChecker` construct (from the source)

The construct resolves `primaryProvider` from its provider map at the
primary region and passes that one provider to every resource it
creates.  The drift-detector Lambda's `ELASTICACHE_ENDPOINT` variable is
the configuration endpoint of the cluster of `props.regions[0]`.  The
schedule is the `consistency-check-rule` EventBridge rule with
expression `rate(1 minute)`. -/

/-- Construct properties, mirroring `ConsistencyCheckerProps`.  Provider
objects are identified by an opaque handle string; the cluster map holds
each cluster's `configurationEndpointAddress`. -/
structure ConsistencyCheckerProps where
  providers : List (String × String)
  regions : List String
  primaryRegion : String
  elastiCacheClusters : List (String × String)
  snapshotBucketArn : String
  kinesisStreamArns : List (String × String)
  environment : String

/-- One resource created by the construct: its construct id and the
provider handle it was created with (`none` models the TypeScript
non-null assertion failing at runtime when the map lookup misses). -/
structure ResourceDecl where
  constructId : String
  providerHandle : Option String
  deriving Repr, DecidableEq

/-- Everything the `ConsistencyChecker` constructor creates, with the
configuration fields the claims are about. -/
structure ConsistencyCheckerOutput where
  resources : List ResourceDecl
  driftDetectorEnvElastiCacheEndpointAddr : Option String
  driftDetectorTimeoutSeconds : Nat
  stateCorrectorTimeoutSeconds : Nat
  stateMachine : StateMachineDef
  eventRuleScheduleExpression : String
  eventRuleState : String
  eventTargetRule : String
  eventTargetArn : String

/-- The `ConsistencyChecker` constructor: every resource is created with
`primaryProvider` (the provider-map entry at `primaryRegion`), and the
drift-detector environment takes the cache endpoint of the first
configured region only. -/
def consistencyChecker (props : ConsistencyCheckerProps) :
    ConsistencyCheckerOutput :=
  let primaryProvider := props.providers.lookup props.primaryRegion
  { resources :=
      [ { constructId := "drift-detector-role", providerHandle := primaryProvider }
      , { constructId := "drift-detector-policy", providerHandle := primaryProvider }
      , { constructId := "drift-detector", providerHandle := primaryProvider }
      , { constructId := "state-corrector", providerHandle := primaryProvider }
      , { constructId := "step-functions-role", providerHandle := primaryProvider }
      , { constructId := "step-functions-policy", providerHandle := primaryProvider }
      , { constructId := "consistency-state-machine", providerHandle := primaryProvider }
      , { constructId := "consistency-check-rule", providerHandle := primaryProvider }
      , { constructId := "consistency-check-target", providerHandle := primaryProvider } ]
    driftDetectorEnvElastiCacheEndpointAddr :=
      props.regions.head?.bind (fun r => props.elastiCacheClusters.lookup r)
    driftDetectorTimeoutSeconds := 60
    stateCorrectorTimeoutSeconds := 60
    stateMachine := stateMachineDefinition props.regions
    eventRuleScheduleExpression := "rate(1 minute)"
    eventRuleState := "ENABLED"
    eventTargetRule := "consistency-check-rule"
    eventTargetArn := "consistency-state-machine" }

/-- From `CorrectionSystem` in the source: the snapshot-creator Lambda
runs on the `snapshot-rule` EventBridge schedule. -/
def snapshotRuleScheduleExpression : String := "rate(1 hour)"

/-- Seconds denoted by the EventBridge rate expressions appearing in the
source (the service's minimum granularity for rate expressions is one
minute). -/
def rateExpressionSeconds (e : String) : Option Nat :=
  if e = "rate(1 minute)" then some 60
  else if e = "rate(1 hour)" then some 3600
  else none

/-- The period, in seconds, of the schedule driving reconciliation
cycles for a given deployment. -/
def triggerPeriodSeconds (props : ConsistencyCheckerProps) : Nat :=
  (rateExpressionSeconds (consistencyChecker props).eventRuleScheduleExpression).getD 0

/-- An upper bound on one cycle's wall-clock duration implied by the
deployed timeouts: the 5-second per-region task timeouts run in
parallel, the `AnalyzeDrift` task is bounded only by the drift-detector
Lambda's 60-second function timeout, and `CorrectDrift` has a 10-second
task timeout. -/
def maxCycleDurationSeconds (props : ConsistencyCheckerProps) : Nat :=
  (((stateMachineDefinition props.regions).compareBranches.map
      (fun b => b.timeoutSeconds)).foldr max 0) +
    (consistencyChecker props).driftDetectorTimeoutSeconds +
    (stateMachineDefinition props.regions).correctTimeoutSeconds

/-- A cycle duration the deployed timeouts permit. -/
def possibleCycleDurationSeconds (props : ConsistencyCheckerProps) (d : Nat) :
    Prop :=
  d ≤ maxCycleDurationSeconds props

/-- The spec's no-overlap discipline, stated of a deployment: every
duration the timeouts permit fits inside one trigger period, so the
previous cycle is finished when the next one starts. -/
def cyclesNeverOverlap (props : ConsistencyCheckerProps) : Prop :=
  ∀ d : Nat, possibleCycleDurationSeconds props d → d ≤ triggerPeriodSeconds props

/-! ## Concrete instances used by witnesses and counterexamples -/

/-- A three-region deployment, as in the spec's reference scenario. -/
def demoRegions : List String := ["us-east-1", "eu-west-1", "ap-south-1"]

/-- A one-driver snapshot for one region. -/
def demoSnap (r : String) (d : String) (pos : GeoPos) : RegionSnapshot :=
  { region := r
    fetchedAtMillis := 0
    samples := [{ driverID := d, latitude := pos.1, longitude := pos.2,
                  observedAtMillis := 0, region := r }]
    fetchError := false }

/-- A concrete distance function for witnesses: distinct points lie 200
meters apart, a point is at distance 0 from itself (the property of the
haversine distance the theorems rely on). -/
def demoDist : GeoPos → GeoPos → ℚ :=
  fun p q => if p = q then 0 else 200

/-- Three regions reporting driver D1 at three distinct positions. -/
def demoDriftSnaps : List RegionSnapshot :=
  [demoSnap "us-east-1" "D1" (1, 1),
   demoSnap "eu-west-1" "D1" (2, 2),
   demoSnap "ap-south-1" "D1" (3, 3)]

/-- Three regions reporting driver D1 at the same position. -/
def demoSameSnaps : List RegionSnapshot :=
  [demoSnap "us-east-1" "D1" (1, 1),
   demoSnap "eu-west-1" "D1" (1, 1),
   demoSnap "ap-south-1" "D1" (1, 1)]

/-- Every per-region compare task completes. -/
def demoCompareOk : String → TaskOutcome ComparePayload :=
  fun r => .completed { region := r }

/-- An execution in which all regions answered, the analyzer classified
the demo drift snapshots, and correction completed. -/
def demoEnvMajor : CycleEnv :=
  { compare := demoCompareOk
    analyze := .completed (analyzeOutputOf demoDist "cycle-major" demoDriftSnaps)
    correct := .completed () }

/-- An execution in which drift was detected but the corrector raised
`SnapshotUnavailable` (stale or missing canonical snapshot). -/
def demoEnvSnapFail : CycleEnv :=
  { compare := demoCompareOk
    analyze := .completed { driftDetected := true, driftRegions := demoRegions,
                            canonicalState := "stale" }
    correct := .errored "SnapshotUnavailable" }

/-- An execution in which one of the three per-region compare tasks hit
its 5-second timeout while the other two completed. -/
def demoEnvTimeout : CycleEnv :=
  { compare := fun r =>
      if r = "eu-west-1" then .timedOut else .completed { region := r }
    analyze := .completed { driftDetected := false, driftRegions := [],
                            canonicalState := "" }
    correct := .completed () }

/-- A three-region deployment configuration. -/
def demoProps : ConsistencyCheckerProps :=
  { providers := [("us-east-1", "aws.us-east-1"),
                  ("eu-west-1", "aws.eu-west-1"),
                  ("ap-south-1", "aws.ap-south-1")]
    regions := demoRegions
    primaryRegion := "us-east-1"
    elastiCacheClusters := [("us-east-1", "cache-us-east-1.example"),
                            ("eu-west-1", "cache-eu-west-1.example"),
                            ("ap-south-1", "cache-ap-south-1.example")]
    snapshotBucketArn := "arn:aws:s3:::location-snapshots-dev"
    kinesisStreamArns := [("us-east-1", "stream-us-east-1")]
    environment := "dev" }

/-! ## Helper lemmas -/

lemma findSome?_branchError_eq_none (regions : List String) (env : CycleEnv)
    (h : allComparesCompleted regions env = true) :
    regions.findSome? (fun r => branchError (env.compare r)) = none := by
  induction regions with
  | nil => rfl
  | cons r rs ih =>
    rw [allComparesCompleted, List.all_cons, Bool.and_eq_true] at h
    have h1 : branchError (env.compare r) = none :=
      Option.isNone_iff_eq_none.mp h.1
    rw [List.findSome?_cons, h1]
    exact ih h.2

lemma findSome?_branchError_isSome (regions : List String) (env : CycleEnv)
    (r : String) (hr : r ∈ regions)
    (he : (branchError (env.compare r)).isSome = true) :
    (regions.findSome? (fun x => branchError (env.compare x))).isSome = true := by
  induction regions with
  | nil => cases hr
  | cons a rs ih =>
    rw [List.findSome?_cons]
    rcases List.mem_cons.mp hr with rfl | hmem
    · obtain ⟨e, he'⟩ := Option.isSome_iff_exists.mp he
      rw [he']
      rfl
    · cases h : branchError (env.compare a) with
      | some e => rfl
      | none => exact ih hmem

lemma runCycle_of_findSome?_some (regions : List String) (env : CycleEnv)
    (e : String)
    (h : regions.findSome? (fun r => branchError (env.compare r)) = some e) :
    runCycle regions env = .failed e := by
  unfold runCycle
  rw [h]

lemma foldr_max_eq_zero {l : List ℚ} (h : ∀ x ∈ l, x = 0) :
    l.foldr max 0 = 0 := by
  induction l with
  | nil => rfl
  | cons a l ih =>
    rw [List.foldr_cons, h a (List.mem_cons_self a l),
      ih (fun x hx => h x (List.mem_cons_of_mem a hx))]
    exact max_self 0

lemma mem_of_mem_listPairs {α : Type} {pq : α × α} {l : List α}
    (h : pq ∈ listPairs l) : pq.1 ∈ l ∧ pq.2 ∈ l := by
  induction l with
  | nil => cases h
  | cons x xs ih =>
    rw [listPairs, List.mem_append] at h
    rcases h with h | h
    · obtain ⟨y, hy, rfl⟩ := List.mem_map.mp h
      exact ⟨List.mem_cons_self x xs, List.mem_cons_of_mem x hy⟩
    · obtain ⟨h1, h2⟩ := ih h
      exact ⟨List.mem_cons_of_mem x h1, List.mem_cons_of_mem x h2⟩

lemma classifySeverity_zero (a : Nat) : classifySeverity 0 a = .sevNone := rfl

lemma classifySeverity_eq_major_iff (c a : Nat) :
    classifySeverity c a = .major ↔ c ≠ 0 ∧ 3 ≤ a := by
  unfold classifySeverity
  by_cases hc : c = 0
  · simp [hc]
  · by_cases ha : a ≤ 2
    · simp only [if_neg hc, if_pos ha]
      constructor
      · intro h
        simp at h
      · rintro ⟨-, h2⟩
        omega
    · simp only [if_neg hc, if_neg ha]
      constructor
      · intro _
        exact ⟨hc, by omega⟩
      · intro _
        trivial

/-- The drivers the analyzer classifies as drifted. -/
lemma analyze_severity_eq (dist : GeoPos → GeoPos → ℚ) (cycleID : String)
    (snaps : List RegionSnapshot)
    (h : ¬ (usableSnapshots snaps).length < 2) :
    (analyze dist cycleID snaps).severity =
      classifySeverity
        ((sampledDriverIDs (usableSnapshots snaps)).filter
          (fun d => isDrifted dist (positionsOf d (usableSnapshots snaps)))).length
        ((((sampledDriverIDs (usableSnapshots snaps)).filter
            (fun d => isDrifted dist (positionsOf d (usableSnapshots snaps)))).flatMap
          (fun d => driverAffectedRegions dist (positionsOf d (usableSnapshots snaps)))).dedup).length := by
  unfold analyze
  rw [if_neg h]

/-- A record is covered by a cache when the cache already stores an
entry for its driver at least as new as the record. -/
def coveredBy (c : RegionCache) (r : LocationSample) : Prop :=
  ∃ old, c r.driverID = some old ∧
    r.observedAtMillis ≤ old.observedAtMillis

lemma publish_of_coveredBy {c : RegionCache} {r : LocationSample}
    (h : coveredBy c r) : publish c r = c := by
  obtain ⟨old, hold, hts⟩ := h
  funext d
  unfold publish
  by_cases hd : d = r.driverID
  · rw [if_pos hd, hold]
    show (if old.observedAtMillis < r.observedAtMillis then some r else some old)
        = c d
    rw [if_neg (not_lt.mpr hts), hd, hold]
  · rw [if_neg hd]

lemma coveredBy_publish {c : RegionCache} {r r' : LocationSample}
    (h : coveredBy c r) : coveredBy (publish c r') r := by
  obtain ⟨old, hold, hts⟩ := h
  unfold coveredBy publish
  by_cases hd : r.driverID = r'.driverID
  · rw [if_pos hd, ← hd, hold]
    show ∃ o, (if old.observedAtMillis < r'.observedAtMillis then some r' else some old)
        = some o ∧ r.observedAtMillis ≤ o.observedAtMillis
    by_cases h2 : old.observedAtMillis < r'.observedAtMillis
    · rw [if_pos h2]
      exact ⟨r', rfl, le_of_lt (lt_of_le_of_lt hts h2)⟩
    · rw [if_neg h2]
      exact ⟨old, rfl, hts⟩
  · rw [if_neg hd]
    exact ⟨old, hold, hts⟩

lemma coveredBy_publish_self (c : RegionCache) (r : LocationSample) :
    coveredBy (publish c r) r := by
  unfold coveredBy publish
  rw [if_pos rfl]
  cases hold : c r.driverID with
  | none => exact ⟨r, rfl, le_refl _⟩
  | some old =>
    show ∃ o, (if old.observedAtMillis < r.observedAtMillis then some r else some old)
        = some o ∧ r.observedAtMillis ≤ o.observedAtMillis
    by_cases h2 : old.observedAtMillis < r.observedAtMillis
    · rw [if_pos h2]
      exact ⟨r, rfl, le_refl _⟩
    · rw [if_neg h2]
      exact ⟨old, rfl, not_lt.mp h2⟩

lemma coveredBy_applyRecords {c : RegionCache} {r : LocationSample}
    (rs : List LocationSample) (h : coveredBy c r) :
    coveredBy (applyRecords c rs) r := by
  induction rs generalizing c with
  | nil => exact h
  | cons r' rest ih => exact ih (coveredBy_publish h)

lemma applyRecords_coveredBy {rs : List LocationSample} (c : RegionCache)
    {r : LocationSample} (hr : r ∈ rs) :
    coveredBy (applyRecords c rs) r := by
  induction rs generalizing c with
  | nil => cases hr
  | cons r' rest ih =>
    rcases List.mem_cons.mp hr with rfl | hmem
    · exact coveredBy_applyRecords rest (coveredBy_publish_self c r)
    · exact ih (publish c r') hmem

lemma applyRecords_eq_of_all_covered {rs : List LocationSample}
    {c : RegionCache} (h : ∀ r ∈ rs, coveredBy c r) :
    applyRecords c rs = c := by
  induction rs with
  | nil => rfl
  | cons r' rest ih =>
    have h1 : publish c r' = c :=
      publish_of_coveredBy (h r' (List.mem_cons_self r' rest))
    show applyRecords (publish c r') rest = c
    rw [h1]
    exact ih (fun r hr => h r (List.mem_cons_of_mem r' hr))

lemma applyRecords_idem (c : RegionCache) (rs : List LocationSample) :
    applyRecords (applyRecords c rs) rs = applyRecords c rs :=
  applyRecords_eq_of_all_covered (fun _ hr => applyRecords_coveredBy c hr)

lemma analyze_severity_insufficient (dist : GeoPos → GeoPos → ℚ)
    (cycleID : String) (snaps : List RegionSnapshot)
    (h : (usableSnapshots snaps).length < 2) :
    (analyze dist cycleID snaps).severity = Severity.sevNone := by
  unfold analyze
  rw [if_pos h]

lemma analyze_major_iff (dist : GeoPos → GeoPos → ℚ) (cycleID : String)
    (snaps : List RegionSnapshot) :
    (analyze dist cycleID snaps).severity = Severity.major ↔
      (analyze dist cycleID snaps).driftedDriverCount ≠ 0 ∧
        3 ≤ (analyze dist cycleID snaps).affectedRegions.length := by
  by_cases hlen : (usableSnapshots snaps).length < 2
  · unfold analyze
    rw [if_pos hlen]
    simp
  · unfold analyze
    rw [if_neg hlen]
    exact classifySeverity_eq_major_iff _ _

/-! ## Claims -/

/-- C7: if every sampled driver's reported positions agree across all
usable regions (so no pairwise distance can exceed the 100-meter
threshold), `analyze` reports severity None.  `dist` is any distance
function vanishing on the diagonal — the property the haversine
computation satisfies exactly on identical coordinates. -/
theorem analyze_identical_positions_severity_none
    (dist : GeoPos → GeoPos → ℚ) (cycleID : String)
    (snaps : List RegionSnapshot)
    (hdist : ∀ p : GeoPos, dist p p = 0)
    (hsame : ∀ d ∈ sampledDriverIDs (usableSnapshots snaps),
      ∀ p ∈ positionsOf d (usableSnapshots snaps),
        ∀ q ∈ positionsOf d (usableSnapshots snaps), p.2 = q.2) :
    (analyze dist cycleID snaps).severity = Severity.sevNone := by
  by_cases hlen : (usableSnapshots snaps).length < 2
  · exact analyze_severity_insufficient dist cycleID snaps hlen
  · rw [analyze_severity_eq dist cycleID snaps hlen]
    have hfilter : (sampledDriverIDs (usableSnapshots snaps)).filter
        (fun d => isDrifted dist (positionsOf d (usableSnapshots snaps))) = [] := by
      rw [List.filter_eq_nil_iff]
      intro d hd
      have hmax : maxPairDist dist (positionsOf d (usableSnapshots snaps)) = 0 := by
        unfold maxPairDist
        apply foldr_max_eq_zero
        intro x hx
        obtain ⟨pq, hpq, rfl⟩ := List.mem_map.mp hx
        obtain ⟨h1, h2⟩ := mem_of_mem_listPairs hpq
        rw [hsame d hd pq.1 h1 pq.2 h2]
        exact hdist pq.2.2
      simp only [isDrifted, hmax, driftThresholdMeters]
      norm_num
    rw [hfilter]
    rfl

/-- C7 witness: three regions reporting driver D1 at the same position
yield severity None. -/
theorem analyze_identical_positions_severity_none_witness :
    (analyze demoDist "cycle-same" demoSameSnaps).severity = Severity.sevNone :=
  analyze_identical_positions_severity_none demoDist "cycle-same" demoSameSnaps
    (fun p => by simp [demoDist]) (by decide)

/-- C1: with all per-region compare tasks completed and the analyzer's
output modelled from the spec (`driftDetected` true exactly on Major
severity), the `CorrectDrift` task is invoked iff the cycle's report has
severity Major; Major severity holds iff drift exists and three or more
regions are implicated; and a non-Major cycle terminates at `Success`
without correction. -/
theorem correctDrift_iff_major_severity
    (regions : List String) (env : CycleEnv)
    (dist : GeoPos → GeoPos → ℚ) (cycleID : String)
    (snaps : List RegionSnapshot)
    (hok : allComparesCompleted regions env = true)
    (hana : env.analyze = .completed (analyzeOutputOf dist cycleID snaps)) :
    (correctorInvoked regions env = true ↔
      (analyze dist cycleID snaps).severity = Severity.major)
    ∧ ((analyze dist cycleID snaps).severity = Severity.major ↔
        (analyze dist cycleID snaps).driftedDriverCount ≠ 0 ∧
          3 ≤ (analyze dist cycleID snaps).affectedRegions.length)
    ∧ ((analyze dist cycleID snaps).severity ≠ Severity.major →
        runCycle regions env = CycleResult.succeededAt "Success") := by
  refine ⟨?_, analyze_major_iff dist cycleID snaps, ?_⟩
  · unfold correctorInvoked
    rw [hok, hana]
    simp [analyzeOutputOf]
  · intro hne
    unfold runCycle
    rw [findSome?_branchError_eq_none regions env hok, hana]
    have hdd : (analyzeOutputOf dist cycleID snaps).driftDetected = false := by
      simp [analyzeOutputOf]
      exact hne
    show (if (analyzeOutputOf dist cycleID snaps).driftDetected = true then
            match env.correct with
            | .completed _ => CycleResult.succeededAt "CorrectDrift"
            | .timedOut => CycleResult.failed "States.Timeout"
            | .errored e => CycleResult.failed e
          else CycleResult.succeededAt "Success")
        = CycleResult.succeededAt "Success"
    rw [hdd]
    simp

/-- C1 witness: the three-region drift scenario, in which the report is
Major and the corrector runs. -/
theorem correctDrift_iff_major_severity_witness :
    (correctorInvoked demoRegions demoEnvMajor = true ↔
      (analyze demoDist "cycle-major" demoDriftSnaps).severity = Severity.major)
    ∧ ((analyze demoDist "cycle-major" demoDriftSnaps).severity = Severity.major ↔
        (analyze demoDist "cycle-major" demoDriftSnaps).driftedDriverCount ≠ 0 ∧
          3 ≤ (analyze demoDist "cycle-major" demoDriftSnaps).affectedRegions.length)
    ∧ ((analyze demoDist "cycle-major" demoDriftSnaps).severity ≠ Severity.major →
        runCycle demoRegions demoEnvMajor = CycleResult.succeededAt "Success") :=
  correctDrift_iff_major_severity demoRegions demoEnvMajor demoDist "cycle-major"
    demoDriftSnaps rfl rfl

/-- C2 counterexample: in a Major-drift cycle whose correction
completes, the execution terminates at `CorrectDrift` (`End: true`), and
the deployed machine contains no Verifying, Resolved, or Escalated
state — no verification phase runs. -/
theorem correction_no_verification_counterexample :
    runCycle demoRegions demoEnvMajor = CycleResult.succeededAt "CorrectDrift"
    ∧ "Verifying" ∉ stateNames demoRegions
    ∧ "Resolved" ∉ stateNames demoRegions
    ∧ "Escalated" ∉ stateNames demoRegions := by
  exact ⟨by decide, by decide, by decide, by decide⟩

/-- C2 (amended): after the corrector applies, the cycle ends
immediately at `CorrectDrift`; the definition has no Verifying,
Resolved, or Escalated state, so no verification phase exists. -/
theorem correction_ends_cycle_without_verification
    (regions : List String) (env : CycleEnv) (p : AnalyzeOutput)
    (hok : allComparesCompleted regions env = true)
    (hana : env.analyze = .completed p)
    (hdrift : p.driftDetected = true)
    (hcorr : env.correct = .completed ()) :
    runCycle regions env = CycleResult.succeededAt "CorrectDrift"
    ∧ (stateMachineDefinition regions).correctIsEnd = true
    ∧ "Verifying" ∉ topLevelStateNames (stateMachineDefinition regions)
    ∧ "Resolved" ∉ topLevelStateNames (stateMachineDefinition regions)
    ∧ "Escalated" ∉ topLevelStateNames (stateMachineDefinition regions) := by
  refine ⟨?_, rfl, by unfold topLevelStateNames; decide,
    by unfold topLevelStateNames; decide, by unfold topLevelStateNames; decide⟩
  unfold runCycle
  rw [findSome?_branchError_eq_none regions env hok, hana]
  show (if p.driftDetected = true then
          match env.correct with
          | .completed _ => CycleResult.succeededAt "CorrectDrift"
          | .timedOut => CycleResult.failed "States.Timeout"
          | .errored e => CycleResult.failed e
        else CycleResult.succeededAt "Success")
      = CycleResult.succeededAt "CorrectDrift"
  rw [hdrift, if_pos rfl, hcorr]

/-- C2 witness: the amended statement instantiated at the concrete
Major-drift execution. -/
theorem correction_ends_cycle_without_verification_witness :
    runCycle demoRegions demoEnvMajor = CycleResult.succeededAt "CorrectDrift"
    ∧ (stateMachineDefinition demoRegions).correctIsEnd = true
    ∧ "Verifying" ∉ topLevelStateNames (stateMachineDefinition demoRegions)
    ∧ "Resolved" ∉ topLevelStateNames (stateMachineDefinition demoRegions)
    ∧ "Escalated" ∉ topLevelStateNames (stateMachineDefinition demoRegions) :=
  correction_ends_cycle_without_verification demoRegions demoEnvMajor
    (analyzeOutputOf demoDist "cycle-major" demoDriftSnaps) rfl rfl (by decide) rfl

/-- C3 counterexample: the deployed schedule expression is
`rate(1 minute)` — a 60-second cadence, not 10 seconds. -/
theorem reconciliation_cadence_counterexample :
    (consistencyChecker demoProps).eventRuleScheduleExpression = "rate(1 minute)"
    ∧ triggerPeriodSeconds demoProps = 60
    ∧ triggerPeriodSeconds demoProps ≠ 10 := by
  exact ⟨rfl, by decide, by decide⟩

/-- C3 (amended): for every deployment the consistency-check rule's
schedule is `rate(1 minute)` — a 60-second cadence, the EventBridge
minimum for rate expressions — and the rule is enabled. -/
theorem reconciliation_cadence_one_minute (props : ConsistencyCheckerProps) :
    (consistencyChecker props).eventRuleScheduleExpression = "rate(1 minute)"
    ∧ triggerPeriodSeconds props = 60
    ∧ (consistencyChecker props).eventRuleState = "ENABLED" :=
  ⟨rfl, rfl, rfl⟩

/-- C4 counterexample: a cycle in which the corrector raises
`SnapshotUnavailable` ends as a failed execution, not in an Escalated
state — the machine has no Escalated state at all, and its only Choice
examines `$.Payload.driftDetected`, not snapshot age. -/
theorem snapshot_unavailable_counterexample :
    runCycle demoRegions demoEnvSnapFail = CycleResult.failed "SnapshotUnavailable"
    ∧ (∀ s : String, runCycle demoRegions demoEnvSnapFail ≠ CycleResult.succeededAt s)
    ∧ "Escalated" ∉ stateNames demoRegions
    ∧ (stateMachineDefinition demoRegions).choiceVarPath = "$.Payload.driftDetected" := by
  have h0 : runCycle demoRegions demoEnvSnapFail
      = CycleResult.failed "SnapshotUnavailable" := by decide
  refine ⟨h0, ?_, by decide, rfl⟩
  intro s h
  rw [h0] at h
  exact CycleResult.noConfusion h

/-- C4 (amended): when the corrector raises `SnapshotUnavailable`, the
uncaught error fails the whole execution; no Escalated terminal state
exists or is reached. -/
theorem snapshot_unavailable_fails_not_escalates
    (regions : List String) (env : CycleEnv) (p : AnalyzeOutput)
    (hok : allComparesCompleted regions env = true)
    (hana : env.analyze = .completed p)
    (hdrift : p.driftDetected = true)
    (hcorr : env.correct = .errored "SnapshotUnavailable") :
    runCycle regions env = CycleResult.failed "SnapshotUnavailable"
    ∧ (∀ s : String, runCycle regions env ≠ CycleResult.succeededAt s)
    ∧ "Escalated" ∉ topLevelStateNames (stateMachineDefinition regions) := by
  have h1 : runCycle regions env = CycleResult.failed "SnapshotUnavailable" := by
    unfold runCycle
    rw [findSome?_branchError_eq_none regions env hok, hana]
    show (if p.driftDetected = true then
            match env.correct with
            | .completed _ => CycleResult.succeededAt "CorrectDrift"
            | .timedOut => CycleResult.failed "States.Timeout"
            | .errored e => CycleResult.failed e
          else CycleResult.succeededAt "Success")
        = CycleResult.failed "SnapshotUnavailable"
    rw [hdrift, if_pos rfl, hcorr]
  refine ⟨h1, ?_, by unfold topLevelStateNames; decide⟩
  intro s h
  rw [h1] at h
  exact CycleResult.noConfusion h

/-- C4 witness: the amended statement at the concrete stale-snapshot
execution. -/
theorem snapshot_unavailable_fails_not_escalates_witness :
    runCycle demoRegions demoEnvSnapFail = CycleResult.failed "SnapshotUnavailable"
    ∧ (∀ s : String, runCycle demoRegions demoEnvSnapFail ≠ CycleResult.succeededAt s)
    ∧ "Escalated" ∉ topLevelStateNames (stateMachineDefinition demoRegions) :=
  snapshot_unavailable_fails_not_escalates demoRegions demoEnvSnapFail
    { driftDetected := true, driftRegions := demoRegions, canonicalState := "stale" }
    rfl rfl rfl rfl

/-- C5 counterexample: with one of three regions timing out, the whole
execution fails with `States.Timeout`; the analyzer never runs on the
two remaining regions and the cycle does not reach `Success`. -/
theorem region_timeout_counterexample :
    runCycle demoRegions demoEnvTimeout = CycleResult.failed "States.Timeout"
    ∧ analyzerInvoked demoRegions demoEnvTimeout = false
    ∧ runCycle demoRegions demoEnvTimeout ≠ CycleResult.succeededAt "Success" := by
  exact ⟨by decide, by decide, by decide⟩

/-- C5 (amended): each per-region task carries a 5-second timeout, but
the Parallel state has no Catch: any region's timeout fails the entire
execution and the analyzer is not invoked on the remaining regions. -/
theorem region_timeout_fails_whole_cycle
    (regions : List String) (env : CycleEnv) (r : String)
    (hr : r ∈ regions) (ht : env.compare r = .timedOut) :
    analyzerInvoked regions env = false
    ∧ (∃ e, runCycle regions env = CycleResult.failed e)
    ∧ (∀ b ∈ (stateMachineDefinition regions).compareBranches,
        b.timeoutSeconds = 5) := by
  have hbe : (branchError (env.compare r)).isSome = true := by
    rw [ht]
    rfl
  refine ⟨?_, ?_, ?_⟩
  · unfold analyzerInvoked allComparesCompleted
    by_contra hc
    rw [Bool.not_eq_false] at hc
    have hall := List.all_eq_true.mp hc r hr
    rw [ht] at hall
    simp [branchError] at hall
  · obtain ⟨e, he⟩ := Option.isSome_iff_exists.mp
      (findSome?_branchError_isSome regions env r hr hbe)
    exact ⟨e, runCycle_of_findSome?_some regions env e he⟩
  · intro b hb
    simp only [stateMachineDefinition, List.mem_map] at hb
    obtain ⟨region, hregion, rfl⟩ := hb
    rfl

/-- C5 witness: the amended statement at the concrete one-timeout
execution. -/
theorem region_timeout_fails_whole_cycle_witness :
    analyzerInvoked demoRegions demoEnvTimeout = false
    ∧ (∃ e, runCycle demoRegions demoEnvTimeout = CycleResult.failed e)
    ∧ (∀ b ∈ (stateMachineDefinition demoRegions).compareBranches,
        b.timeoutSeconds = 5) :=
  region_timeout_fails_whole_cycle demoRegions demoEnvTimeout "eu-west-1"
    (by decide) (by decide)

/-- C6 counterexample: the no-overlap discipline fails for the deployed
configuration — the timeouts permit a 75-second cycle while the next
trigger fires after 60 seconds. -/
theorem cycles_overlap_counterexample : ¬ cyclesNeverOverlap demoProps := by
  intro h
  have h75 := h 75 (by decide : (75 : Nat) ≤ maxCycleDurationSeconds demoProps)
  have h60 : triggerPeriodSeconds demoProps = 60 := by decide
  omega

/-- C6 (amended): the trigger is an unconditional, always-enabled
60-second schedule that does not consult the previous execution, and the
deployed timeouts permit a cycle longer than the period, so a cycle can
still be running when the next one starts. -/
theorem unconditional_trigger_allows_overlap :
    (consistencyChecker demoProps).eventRuleScheduleExpression = "rate(1 minute)"
    ∧ (consistencyChecker demoProps).eventRuleState = "ENABLED"
    ∧ ∃ d, possibleCycleDurationSeconds demoProps d
        ∧ triggerPeriodSeconds demoProps < d :=
  ⟨rfl, rfl, 75,
    (by decide : (75 : Nat) ≤ maxCycleDurationSeconds demoProps), by decide⟩

/-- C8: the analyze action is a pure function of its input snapshots:
its result is identical in any two ambient worlds (it performs no I/O),
so two runs on the same snapshot sequence produce the same report. -/
theorem analyze_action_deterministic (w₁ w₂ : LambdaWorld)
    (dist : GeoPos → GeoPos → ℚ) (cycleID : String)
    (snaps : List RegionSnapshot) :
    driftDetectorAnalyzeHandler w₁ dist cycleID snaps =
      driftDetectorAnalyzeHandler w₂ dist cycleID snaps := rfl

/-- C9: applying the same CorrectionPlan twice is idempotent: with
last-write-wins propagation by record timestamp, the caches after two
applications equal the caches after one. -/
theorem applyPlan_idempotent (caches : String → RegionCache)
    (plan : CorrectionPlan) :
    applyPlan (applyPlan caches plan) plan = applyPlan caches plan := by
  funext region
  by_cases h : region ∈ plan.targetRegions
  · simp only [applyPlan, if_pos h]
    exact applyRecords_idem _ _
  · simp only [applyPlan, if_neg h]

/-- C10 (implicit): every resource the ConsistencyChecker creates is
created with the primary region's provider, and the drift detector's
ELASTICACHE_ENDPOINT is the cache endpoint of the first configured
region only, independent of the rest of the region list. -/
theorem consistencyChecker_primary_region_only
    (props : ConsistencyCheckerProps) (r : String) (rest : List String)
    (h : props.regions = r :: rest) :
    (∀ res ∈ (consistencyChecker props).resources,
        res.providerHandle = props.providers.lookup props.primaryRegion)
    ∧ (consistencyChecker props).driftDetectorEnvElastiCacheEndpointAddr
        = props.elastiCacheClusters.lookup r := by
  constructor
  · intro res hres
    simp only [consistencyChecker, List.mem_cons, List.not_mem_nil,
      or_false] at hres
    rcases hres with rfl | rfl | rfl | rfl | rfl | rfl | rfl | rfl | rfl <;> rfl
  · simp [consistencyChecker, h]

/-- C10 witness: the three-region deployment, whose endpoint comes from
us-east-1, the first configured region. -/
theorem consistencyChecker_primary_region_only_witness :
    (∀ res ∈ (consistencyChecker demoProps).resources,
        res.providerHandle = demoProps.providers.lookup demoProps.primaryRegion)
    ∧ (consistencyChecker demoProps).driftDetectorEnvElastiCacheEndpointAddr
        = demoProps.elastiCacheClusters.lookup "us-east-1" :=
  consistencyChecker_primary_region_only demoProps "us-east-1"
    ["eu-west-1", "ap-south-1"] rfl

end RideShare
